import Mathlib

/-!
Verification development for the pickandcook video ingestion and
AI-structuring pipeline.

The Python sources are shallowly embedded:
  - JSON values parsed by json.loads are modelled by the inductive `Json`
    (numbers as integers; fractional values play no role in any property
    considered here).
  - Python dictionaries are association lists with unique keys, as
    produced by json.loads; dict.get is `objGet`, assignment to a key is
    `objSet`.
  - Python truthiness of a JSON value is `Json.truthy`.
  - json.dumps with ensure_ascii set to False and default separators is
    `Json.dumps`.
  - Effectful external calls (YouTube API, Gemini) are passed in as
    explicit arguments: the per-call response, or an oracle from attempt
    number to response.
  - A Python exception escaping a block is an `Except.error`.
-/

/-- A JSON value as produced by json.loads. -/
inductive Json where
  | null : Json
  | bool : Bool → Json
  | num : Int → Json
  | str : String → Json
  | arr : List Json → Json
  | obj : List (String × Json) → Json

/-- Python truthiness of a JSON value: None, False, 0, empty string,
empty list and empty dict are falsy, everything else truthy. -/
def Json.truthy : Json → Bool
  | .null => false
  | .bool b => b
  | .num n => !(n == 0)
  | .str s => !(s == "")
  | .arr l => !l.isEmpty
  | .obj es => !es.isEmpty

/-- dict.get: the value at the first (unique) occurrence of the key. -/
def objGet : List (String × Json) → String → Option Json
  | [], _ => none
  | (k', v') :: rest, k => if k' == k then some v' else objGet rest k

/-- dict assignment: replace the value at an existing key in place,
append the pair when the key is absent. -/
def objSet : List (String × Json) → String → Json → List (String × Json)
  | [], k, v => [(k, v)]
  | (k', v') :: rest, k, v =>
      if k' == k then (k, v) :: rest else (k', v') :: objSet rest k v

/-- Truthiness of the result of dict.get: a missing key gives None,
which is falsy. -/
def optTruthy : Option Json → Bool
  | none => false
  | some j => j.truthy

/-- JSON string escaping as json.dumps performs it for the characters
that can occur in the values of this pipeline. -/
def escapeChar (c : Char) : String :=
  if c = '"' then "\\\""
  else if c = '\\' then "\\\\"
  else if c = '\n' then "\\n"
  else if c = '\t' then "\\t"
  else if c = '\r' then "\\r"
  else String.singleton c

def escapeString (s : String) : String :=
  String.join (s.toList.map escapeChar)

mutual

/-- json.dumps with ensure_ascii set to False: default separators are a
comma plus space between members and a colon plus space after keys. -/
def Json.dumps : Json → String
  | .null => "null"
  | .bool b => if b then "true" else "false"
  | .num n => toString n
  | .str s => "\"" ++ escapeString s ++ "\""
  | .arr l => "[" ++ dumpsElems l ++ "]"
  | .obj es => "\x7b" ++ dumpsMembers es ++ "\x7d"

def dumpsElems : List Json → String
  | [] => ""
  | [j] => Json.dumps j
  | j :: rest => Json.dumps j ++ ", " ++ dumpsElems rest

def dumpsMembers : List (String × Json) → String
  | [] => ""
  | [(k, v)] => "\"" ++ escapeString k ++ "\": " ++ Json.dumps v
  | (k, v) :: rest =>
      "\"" ++ escapeString k ++ "\": " ++ Json.dumps v ++ ", " ++ dumpsMembers rest

end

/-- The structured result contract of the structuring capability:
a title, a main-ingredient list and a sauce-ingredient list. -/
structure StructuredResult where
  title : String
  main : List String
  sauce : List String
deriving DecidableEq

/-- Result reconciliation policy, collector.py lines 388 to 397, restricted
to in-contract structured results: the truthiness check
`not result_json.get(...)` on a list value is exactly emptiness, and the
only mutation is the assignment of the title key. -/
def reconcile (r : StructuredResult) : StructuredResult :=
  if r.main.isEmpty && r.sauce.isEmpty && !(r.title == "분석 실패")
  then { r with title := "분석 실패" }
  else r

/-- The in-contract failure sentinel object used as the default when the
Gemini return value is falsy, collector.py line 385. -/
def analysisFailDefault : Json :=
  .obj [("title", .str "분석 실패"), ("main", .arr []), ("sauce", .arr [])]

/-- The exhausted-retry sentinel object written on a call failure,
collector.py line 428. -/
def commErrorSentinel : Json :=
  .obj [("title", .str "AI 통신 오류"), ("main", .arr []), ("sauce", .arr [])]

/-- Whether result_json.get of the title key equals the Python string
for the in-contract failure sentinel. -/
def titleIsFail (es : List (String × Json)) : Bool :=
  match objGet es "title" with
  | some (.str s) => s == "분석 실패"
  | _ => false

/-- The Python post-check of collector.py lines 388 to 397 on the parsed
result dictionary: when the main and sauce values are both falsy and the
title value is not the failure sentinel, the title key is overwritten. -/
def reconcileEntries (es : List (String × Json)) : List (String × Json) :=
  if !optTruthy (objGet es "main") && !optTruthy (objGet es "sauce")
     && !titleIsFail es
  then objSet es "title" (.str "분석 실패")
  else es

/-- An exception raised by the Gemini call pipeline. -/
structure GeminiError where
  msg : String

/-- One video record, mirroring the Video table of init_db.py.
ai_title holds the Python value assigned at collector.py line 402, which
is whatever result_json.get of the title key returned, hence a JSON
value or None. -/
structure Video where
  video_id : String
  channel_id : String
  title : String
  description : String
  published_at : String
  analysis_status : String
  ai_title : Option Json
  ai_ingredients : Option String

/-- The except branch of collector.py lines 415 to 428: status failed,
fixed title, serialized exhausted-retry sentinel. -/
def failPathVideo (v : Video) : Video :=
  { v with analysis_status := "failed",
           ai_title := some (.str "AI 통신 오류"),
           ai_ingredients := some (Json.dumps commErrorSentinel) }

/-- The body of the per-video loop of process_pending_videos,
collector.py lines 375 to 432, for one video.  The argument is the
outcome of the analyze_recipe_with_gemini call: an error when the call
(or its retries) raised, otherwise the parsed JSON value.

The source replaces a falsy return value by the in-contract failure
object (line 385).  When the resulting value is not a dictionary, the
attribute access result_json.get raises, and that exception is caught by
the same handler as a call failure, so the failure path is taken. -/
def process_pending_videos_step (outcome : Except GeminiError Json) (v : Video) : Video :=
  match outcome with
  | .error _ => failPathVideo v
  | .ok analysisResult =>
    let resultJson := if analysisResult.truthy then analysisResult else analysisFailDefault
    match resultJson with
    | .obj es =>
        let es' := reconcileEntries es
        { v with ai_title := objGet es' "title",
                 ai_ingredients := some (Json.dumps (.obj es')),
                 analysis_status := "completed" }
    | _ => failPathVideo v

/-- The JSON object whose serialization process_pending_videos_step
stores in ai_ingredients, path by path. -/
def finalResultJson (outcome : Except GeminiError Json) : Json :=
  match outcome with
  | .error _ => commErrorSentinel
  | .ok analysisResult =>
    let resultJson := if analysisResult.truthy then analysisResult else analysisFailDefault
    match resultJson with
    | .obj es => .obj (reconcileEntries es)
    | _ => commErrorSentinel

/-- The typed failure tenacity raises once the stop condition is reached:
a RetryError wrapping the exception of the last attempt. -/
structure RetryError (E : Type) where
  lastError : E

/-- The retry policy constants of the decorator at collector.py line 158:
stop_after_attempt 3 and wait_exponential with multiplier 1, minimum 4
and maximum 10. -/
def retryStopAttempts : Nat := 3

def retryWaitMultiplier : Nat := 1

def retryWaitMin : Nat := 4

def retryWaitMax : Nat := 10

/-- The tenacity retry loop: run the decorated body, return its value on
success, and on an exception either retry (while attempts remain below
the stop bound) or raise a RetryError wrapping the last exception.
The pair's second component counts the calls made.  The body is the
oracle from zero-based attempt number to that attempt's outcome. -/
def retryGo {E A : Type} (call : Nat → Except E A) :
    Nat → Nat → Except (RetryError E) A × Nat
  | 0, used =>
      (match call used with
       | .ok a => (.ok a, used + 1)
       | .error e => (.error ⟨e⟩, used + 1))
  | 1, used =>
      (match call used with
       | .ok a => (.ok a, used + 1)
       | .error e => (.error ⟨e⟩, used + 1))
  | r + 2, used =>
      (match call used with
       | .ok a => (.ok a, used + 1)
       | .error _ => retryGo call (r + 1) (used + 1))

/-- analyze_recipe_with_gemini, collector.py lines 158 to 254: the
decorated body (model call, code-fence stripping, json.loads, with any
exception re-raised at line 254) is the per-attempt oracle; the
decorator runs it under the retry policy above. -/
def analyze_recipe_with_gemini {E : Type} (call : Nat → Except E Json) :
    Except (RetryError E) Json × Nat :=
  retryGo call retryStopAttempts 0

/-- A failure of a YouTube Data API call. -/
structure ApiError where
  msg : String

/-- The snippet of a top-level comment: its display text may be absent. -/
structure CommentSnippet where
  textDisplay : Option String

/-- The topLevelComment object: its inner snippet may be absent. -/
structure TopLevelCommentObj where
  snippet : Option CommentSnippet

/-- The snippet of one commentThreads item. -/
structure ThreadItemSnippet where
  topLevelComment : Option TopLevelCommentObj

/-- One item of a commentThreads response. -/
structure ThreadItem where
  snippet : Option ThreadItemSnippet

/-- A commentThreads response; a missing items key is the empty list. -/
structure CommentThreadsResponse where
  items : List ThreadItem

/-- The per-video snippet of a videos().list response.  The title and
publishedAt keys are always present in the provider's responses; the
description and the embedded topLevelComment may be absent. -/
structure VideoSnippet where
  title : String
  description : Option String
  publishedAt : String
  topLevelComment : Option TopLevelCommentObj

/-- One item of a videos().list response, with the ISO-8601 duration of
contentDetails already converted to whole seconds, as
isodate.parse_duration followed by total_seconds computes it. -/
structure VideoDetail where
  snippet : VideoSnippet
  durationSec : Nat

/-- get_pinned_comment_text_via_threads, backfill_videos.py lines 45 to 91
(duplicated verbatim at collector.py lines 51 to 97).  The argument is
the commentThreads call response; every exception of the call is caught
and turned into None, as are an empty items list, a missing or falsy
textDisplay. -/
def get_pinned_comment_text_via_threads
    (resp : Except ApiError CommentThreadsResponse) : Option String :=
  match resp with
  | .error _ => none
  | .ok r =>
    match r.items with
    | [] => none
    | item :: _ =>
      let topSnippet := (item.snippet.bind (·.topLevelComment)).bind (·.snippet)
      match topSnippet.bind (·.textDisplay) with
      | some t => if t == "" then none else some t
      | none => none

/-- get_text_to_analyze, backfill_videos.py lines 93 to 147 (duplicated
verbatim at collector.py lines 99 to 153).  The commentThreads response
the secondary call would receive is passed in; the second component of
the returned pair records whether that secondary call was issued.

With the pinned_comment preference, the embedded topLevelComment chain
is tried first; a missing object, missing inner snippet, or falsy
display text all fall through to the secondary call, and when the
resulting text is still falsy the description is used.  With any other
preference the description is returned directly.  A final step turns
None into the empty string, so the result is always a string. -/
def get_text_to_analyze (videoId : String) (videoSnippet : VideoSnippet)
    (recipeSource : String)
    (threadsResp : Except ApiError CommentThreadsResponse) : String × Bool :=
  if recipeSource == "pinned_comment" then
    let viaEmbedded : Option String × Bool :=
      match videoSnippet.topLevelComment with
      | some obj =>
        match obj.snippet with
        | some cs =>
          match cs.textDisplay with
          | some t =>
              if t == "" then (get_pinned_comment_text_via_threads threadsResp, true)
              else (some t, false)
          | none => (get_pinned_comment_text_via_threads threadsResp, true)
        | none => (get_pinned_comment_text_via_threads threadsResp, true)
      | none => (get_pinned_comment_text_via_threads threadsResp, true)
    let afterFallback : Option String :=
      match viaEmbedded.1 with
      | none => some (videoSnippet.description.getD "")
      | some "" => some (videoSnippet.description.getD "")
      | some t => some t
    (afterFallback.getD "", viaEmbedded.2)
  else
    (videoSnippet.description.getD "", false)

/-- The truthy display text embedded in the snippet's topLevelComment
chain, when there is one. -/
def embeddedTruthyText (s : VideoSnippet) : Option String :=
  match (s.topLevelComment.bind (·.snippet)).bind (·.textDisplay) with
  | some t => if t == "" then none else some t
  | none => none

/-- Outcome of the per-video body of an ingestion loop. -/
inductive ItemOutcome where
  | skippedExists : ItemOutcome
  | skippedNoDetail : ItemOutcome
  | skippedError : ItemOutcome
  | filteredOut : ItemOutcome
  | inserted : Video → ItemOutcome

def isInserted : ItemOutcome → Bool
  | .inserted _ => true
  | _ => false

/-- The per-video body of the backfill loop, backfill_videos.py lines 202
to 236: skip when the id already exists, skip a failed or empty detail
response, filter by the 180-second bound, otherwise resolve the text and
build the pending record that is added to the batch. -/
def backfill_all_shorts_item (videoId channelId recipeSource : String)
    (existsInDb : Bool) (detailResp : Except ApiError (List VideoDetail))
    (threadsResp : Except ApiError CommentThreadsResponse) : ItemOutcome :=
  if existsInDb then .skippedExists
  else
    match detailResp with
    | .error _ => .skippedError
    | .ok [] => .skippedNoDetail
    | .ok (video :: _) =>
      if video.durationSec ≤ 180 then
        let textToAnalyze :=
          (get_text_to_analyze videoId video.snippet recipeSource threadsResp).1
        .inserted
          { video_id := videoId
            channel_id := channelId
            title := video.snippet.title
            description := textToAnalyze
            published_at := video.snippet.publishedAt
            analysis_status := "pending"
            ai_title := none
            ai_ingredients := none }
      else .filteredOut

/-- The per-video body of the fetch_new_videos loop, collector.py lines
289 to 344.  For a fresh video whose duration is within the bound, the
source (line 323) calls the three-parameter get_text_to_analyze with
only two positional arguments, snippet_data and channel.recipe_source,
so Python raises a TypeError before the Video record is constructed; the
enclosing handler at line 341 catches it, logs, rolls back and moves on.
The insert at lines 329 to 338 is therefore unreachable. -/
def fetch_new_videos_item (videoId channelId recipeSource : String)
    (existsInDb : Bool)
    (detailResp : Except ApiError (List VideoDetail)) : ItemOutcome :=
  if existsInDb then .skippedExists
  else
    match detailResp with
    | .error _ => .skippedError
    | .ok [] => .skippedNoDetail
    | .ok (video :: _) =>
      if video.durationSec ≤ 180 then
        .skippedError
      else .filteredOut

/-- Whether a JSON value is a string. -/
def isStr : Json → Bool
  | .str _ => true
  | _ => false

/-- Whether a JSON value is an array of strings. -/
def isStringArr : Json → Bool
  | .arr l => l.all isStr
  | _ => false

/-- The persisted payload shape of the specification: an object with
exactly the keys title (a string), main (an array of strings) and sauce
(an array of strings).  Three entries with those three keys present
under first-match lookup force pairwise distinct keys, hence exactly
those keys. -/
def wellShaped : Json → Bool
  | .obj es =>
      es.length == 3
      && (match objGet es "title" with
          | some t => isStr t
          | none => false)
      && (match objGet es "main" with
          | some m => isStringArr m
          | none => false)
      && (match objGet es "sauce" with
          | some s => isStringArr s
          | none => false)
  | _ => false

/-- The structuring-call outcomes for which the code can guarantee the
payload shape: a raised call, a falsy return value, a truthy non-object
return value (whose attribute access raises into the failure path), or a
well-shaped object.  A truthy object of any other shape is passed
through reconciliation without validation. -/
def goodOutcome : Except GeminiError Json → Bool
  | .error _ => true
  | .ok j =>
    if j.truthy then
      match j with
      | .obj es => wellShaped (.obj es)
      | _ => true
    else true

lemma objGet_objSet_same (es : List (String × Json)) (k : String) (v : Json) :
    objGet (objSet es k v) k = some v := by
  induction es with
  | nil => simp [objSet, objGet]
  | cons hd tl ih =>
    obtain ⟨k', v'⟩ := hd
    by_cases h : k' == k
    · simp [objSet, objGet, h]
    · simp only [objSet, objGet, h, Bool.false_eq_true, if_false, ih]

lemma objGet_objSet_other (es : List (String × Json)) (k k' : String) (v : Json)
    (hne : (k' == k) = false) : objGet (objSet es k v) k' = objGet es k' := by
  have hne' : k' ≠ k := by simpa using hne
  induction es with
  | nil => simp [objSet, objGet, Ne.symm hne']
  | cons hd tl ih =>
    obtain ⟨k₀, v₀⟩ := hd
    by_cases h : k₀ == k
    · have hk : k₀ = k := by simpa using h
      subst hk
      simp [objSet, objGet, h, Ne.symm hne']
    · simp only [objSet, objGet, h, Bool.false_eq_true, if_false, ih]

lemma length_objSet_of_present (es : List (String × Json)) (k : String) (v : Json)
    (h : (objGet es k).isSome) : (objSet es k v).length = es.length := by
  induction es with
  | nil => simp [objGet] at h
  | cons hd tl ih =>
    obtain ⟨k₀, v₀⟩ := hd
    by_cases hk : k₀ == k
    · simp [objSet, hk]
    · simp only [objGet, hk, Bool.false_eq_true, if_false] at h
      simp [objSet, hk, ih h]

lemma wellShaped_reconcileEntries (es : List (String × Json))
    (h : wellShaped (.obj es) = true) :
    wellShaped (.obj (reconcileEntries es)) = true := by
  unfold reconcileEntries
  by_cases hc : (!optTruthy (objGet es "main") && !optTruthy (objGet es "sauce")
      && !titleIsFail es) = true
  · simp only [hc, if_true]
    unfold wellShaped at h ⊢
    simp only [Bool.and_eq_true, beq_iff_eq] at h ⊢
    obtain ⟨⟨⟨hlen, htitle⟩, hmain⟩, hsauce⟩ := h
    have hpres : (objGet es "title").isSome := by
      cases hg : objGet es "title" with
      | none => rw [hg] at htitle; exact absurd htitle (by simp)
      | some t => simp
    refine ⟨⟨⟨?_, ?_⟩, ?_⟩, ?_⟩
    · rw [length_objSet_of_present es "title" _ hpres]; exact hlen
    · rw [objGet_objSet_same]; rfl
    · rw [objGet_objSet_other es "title" "main" _ (by decide)]; exact hmain
    · rw [objGet_objSet_other es "title" "sauce" _ (by decide)]; exact hsauce
  · simp only [hc, if_false]
    exact h

lemma fetch_item_no_insert (videoId channelId recipeSource : String)
    (existsInDb : Bool) (detailResp : Except ApiError (List VideoDetail)) :
    isInserted (fetch_new_videos_item videoId channelId recipeSource
      existsInDb detailResp) = false := by
  unfold fetch_new_videos_item
  by_cases h : existsInDb
  · simp [h, isInserted]
  · simp only [h, if_false, Bool.false_eq_true]
    match detailResp with
    | .error _ => rfl
    | .ok [] => rfl
    | .ok (video :: _) =>
      by_cases hd : video.durationSec ≤ 180
      · simp [hd, isInserted]
      · simp [hd, isInserted]

/-- C2: the reconciliation post-check is a pure total function on
structured results: when main and sauce are both empty and the title
differs from the failure sentinel, exactly the title is overwritten with
the sentinel; in every other case the result is returned unchanged. -/
theorem reconcile_spec (r : StructuredResult) :
    (r.main = [] → r.sauce = [] → r.title ≠ "분석 실패" →
      reconcile r = { title := "분석 실패", main := r.main, sauce := r.sauce }) ∧
    ((r.main ≠ [] ∨ r.sauce ≠ [] ∨ r.title = "분석 실패") → reconcile r = r) := by
  constructor
  · intro hm hs ht
    unfold reconcile
    simp only [hm, hs, List.isEmpty_nil, Bool.true_and]
    rw [if_pos (by simp [ht])]
  · intro h
    unfold reconcile
    rcases h with h | h | h
    · rw [if_neg]
      simp [List.isEmpty_iff, h]
    · rw [if_neg]
      simp [List.isEmpty_iff, h]
    · rw [if_neg]
      simp [h]

/-- Witness for C2 at a concrete structured result with a non-sentinel
title and empty lists. -/
theorem reconcile_spec_witness :
    reconcile ⟨"김치찌개", [], []⟩ = ⟨"분석 실패", [], []⟩ :=
  (reconcile_spec ⟨"김치찌개", [], []⟩).1 rfl rfl (by decide)

/-- C10: the reconciliation post-check is idempotent. -/
theorem reconcile_idempotent (r : StructuredResult) :
    reconcile (reconcile r) = reconcile r := by
  by_cases hc : (r.main.isEmpty && r.sauce.isEmpty && !(r.title == "분석 실패")) = true
  · have h1 : reconcile r = { r with title := "분석 실패" } := by
      rw [reconcile, if_pos hc]
    rw [h1, reconcile]
    simp
  · have h1 : reconcile r = r := by
      rw [reconcile, if_neg hc]
    rw [h1, h1]

/-- C9: with the description preference the resolver returns the
description field exactly (the empty string when it is absent),
whatever comment data is available, and the secondary comment-thread
call is never issued. -/
theorem description_preference_text (videoId : String) (snippet : VideoSnippet)
    (threadsResp : Except ApiError CommentThreadsResponse) :
    get_text_to_analyze videoId snippet "description" threadsResp
      = (snippet.description.getD "", false) :=
  rfl

/-- C5: with the pinned_comment preference, when neither the embedded
topLevelComment chain nor the secondary commentThreads call yields a
non-empty text (a failed secondary call included), the resolver returns
the description field, the empty string when it is absent. -/
theorem pinned_comment_fallback_to_description (videoId : String)
    (snippet : VideoSnippet) (threadsResp : Except ApiError CommentThreadsResponse)
    (hEmb : embeddedTruthyText snippet = none)
    (hThreads : get_pinned_comment_text_via_threads threadsResp = none) :
    (get_text_to_analyze videoId snippet "pinned_comment" threadsResp).1
      = snippet.description.getD "" := by
  unfold get_text_to_analyze
  cases htl : snippet.topLevelComment with
  | none => simp [htl, hThreads]
  | some obj =>
    cases hos : obj.snippet with
    | none => simp [htl, hos, hThreads]
    | some cs =>
      cases htd : cs.textDisplay with
      | none => simp [htl, hos, htd, hThreads]
      | some t =>
        by_cases ht : (t == "") = true
        · simp [htl, hos, htd, ht, hThreads]
        · exfalso
          unfold embeddedTruthyText at hEmb
          simp [htl, hos, htd, ht] at hEmb

def sampleThreadsFailure : Except ApiError CommentThreadsResponse :=
  .error ⟨"commentsDisabled"⟩

def sampleSnippetNoComment : VideoSnippet :=
  { title := "된장찌개"
    description := some "재료: 두부, 된장"
    publishedAt := "2024-05-01T00:00:00Z"
    topLevelComment := none }

/-- Witness for C5: no embedded comment, failed secondary call, the
description comes back. -/
theorem pinned_comment_fallback_witness :
    (get_text_to_analyze "vid01" sampleSnippetNoComment "pinned_comment"
      sampleThreadsFailure).1 = "재료: 두부, 된장" :=
  pinned_comment_fallback_to_description "vid01" sampleSnippetNoComment
    sampleThreadsFailure rfl rfl

/-- C4: on an exhausted-retry structuring failure the video is marked
failed, the title column receives the fixed communication-failure
string, the payload column receives the serialized sentinel object, and
that sentinel differs from the in-contract failure sentinel. -/
theorem exhausted_retry_failure_write (v : Video) (e : GeminiError) :
    (process_pending_videos_step (.error e) v).analysis_status = "failed"
    ∧ (process_pending_videos_step (.error e) v).ai_title
        = some (.str "AI 통신 오류")
    ∧ (process_pending_videos_step (.error e) v).ai_ingredients
        = some (Json.dumps commErrorSentinel)
    ∧ Json.dumps commErrorSentinel
        = "\x7b\"title\": \"AI 통신 오류\", \"main\": [], \"sauce\": []\x7d"
    ∧ (("AI 통신 오류" == "분석 실패") = false) :=
  ⟨rfl, rfl, rfl, rfl, rfl⟩

/-- C3: when every attempt of the structuring call raises, the decorated
body is invoked exactly 3 times and the wrapper then raises a RetryError
wrapping the last exception instead of swallowing it. -/
theorem structuring_retry_bound {E : Type} (e : Nat → E)
    (call : Nat → Except E Json) (h : ∀ n, call n = .error (e n)) :
    analyze_recipe_with_gemini call = (.error ⟨e 2⟩, 3) := by
  show retryGo call 3 0 = (.error ⟨e 2⟩, 3)
  simp [retryGo, h]

/-- Witness for C3 with an always-raising capability. -/
theorem structuring_retry_bound_witness :
    analyze_recipe_with_gemini (fun _ => (Except.error 7 : Except Nat Json))
      = (.error ⟨7⟩, 3) :=
  structuring_retry_bound (fun _ => 7) (fun _ => Except.error 7) (fun _ => rfl)

/-- C1: contrary to the claim, fetch_new_videos never inserts any record.
For a fresh video within the duration bound the source reaches the call
at collector.py line 323, which passes two positional arguments to the
three-parameter get_text_to_analyze; the TypeError is caught by the
per-item handler at line 341, the transaction is rolled back and the
item is skipped, so the insert at lines 329 to 338 is unreachable. -/
theorem fetch_new_videos_never_inserts (videoId channelId recipeSource : String)
    (existsInDb : Bool) (detailResp : Except ApiError (List VideoDetail)) :
    isInserted (fetch_new_videos_item videoId channelId recipeSource
      existsInDb detailResp) = false :=
  fetch_item_no_insert videoId channelId recipeSource existsInDb detailResp

def sampleSnippet180 : VideoSnippet :=
  { title := "김치찌개"
    description := some "재료: 김치, 두부"
    publishedAt := "2024-04-01T00:00:00Z"
    topLevelComment := none }

def detail180 : VideoDetail := { snippet := sampleSnippet180, durationSec := 180 }

def detail181 : VideoDetail := { snippet := sampleSnippet180, durationSec := 181 }

def videoV180 : Video :=
  { video_id := "v180"
    channel_id := "ch1"
    title := "김치찌개"
    description := "재료: 김치, 두부"
    published_at := "2024-04-01T00:00:00Z"
    analysis_status := "pending"
    ai_title := none
    ai_ingredients := none }

/-- C8: a video over 180 seconds is never inserted by either ingestion
operation; a fresh 180-second video is inserted as a pending record by
the backfill operation, but not by fetch_new_videos, where the
two-argument call of collector.py line 323 raises before any insert. -/
theorem duration_boundary :
    (∀ (videoId channelId recipeSource : String) (existsInDb : Bool)
        (d : VideoDetail) (threadsResp : Except ApiError CommentThreadsResponse),
        180 < d.durationSec →
        isInserted (backfill_all_shorts_item videoId channelId recipeSource
          existsInDb (.ok [d]) threadsResp) = false)
    ∧ (∀ (videoId channelId recipeSource : String) (existsInDb : Bool)
        (d : VideoDetail),
        180 < d.durationSec →
        isInserted (fetch_new_videos_item videoId channelId recipeSource
          existsInDb (.ok [d])) = false)
    ∧ backfill_all_shorts_item "v180" "ch1" "description" false (.ok [detail180])
        sampleThreadsFailure = .inserted videoV180
    ∧ isInserted (fetch_new_videos_item "v180" "ch1" "description" false
        (.ok [detail180])) = false := by
  refine ⟨?_, ?_, rfl, rfl⟩
  · intro videoId channelId recipeSource existsInDb d threadsResp hd
    unfold backfill_all_shorts_item
    by_cases he : existsInDb
    · simp [he, isInserted]
    · simp [he, Nat.not_le.mpr hd, isInserted]
  · intro videoId channelId recipeSource existsInDb d hd
    exact fetch_item_no_insert videoId channelId recipeSource existsInDb (.ok [d])

/-- Witness for C8 at a concrete 181-second video. -/
theorem duration_boundary_witness :
    isInserted (backfill_all_shorts_item "v181" "ch1" "description" false
      (.ok [detail181]) sampleThreadsFailure) = false :=
  duration_boundary.1 "v181" "ch1" "description" false detail181
    sampleThreadsFailure (by decide)

def samplePendingVideo : Video :=
  { video_id := "vid02"
    channel_id := "ch1"
    title := "제육볶음"
    description := "재료: 돼지고기 200g"
    published_at := "2024-05-02T00:00:00Z"
    analysis_status := "pending"
    ai_title := none
    ai_ingredients := none }

lemma step_ai_ingredients_eq (outcome : Except GeminiError Json) (v : Video) :
    (process_pending_videos_step outcome v).ai_ingredients
      = some (Json.dumps (finalResultJson outcome)) := by
  cases outcome with
  | error e => rfl
  | ok j =>
    unfold process_pending_videos_step finalResultJson
    by_cases hj : j.truthy = true
    · simp only [hj, if_true]
      cases j <;> rfl
    · have hj' : j.truthy = false := by
        cases hb : j.truthy with
        | false => rfl
        | true => exact absurd hb hj
      simp only [hj', Bool.false_eq_true, if_false]
      rfl

lemma finalResultJson_wellShaped (outcome : Except GeminiError Json)
    (hg : goodOutcome outcome = true) :
    wellShaped (finalResultJson outcome) = true := by
  cases outcome with
  | error e => rfl
  | ok j =>
    unfold finalResultJson
    unfold goodOutcome at hg
    by_cases hj : j.truthy = true
    · simp only [hj, if_true] at hg ⊢
      cases j with
      | obj es => exact wellShaped_reconcileEntries es hg
      | null => rfl
      | bool b => rfl
      | num n => rfl
      | str s => rfl
      | arr l => rfl
    · have hj' : j.truthy = false := by
        cases hb : j.truthy with
        | false => rfl
        | true => exact absurd hb hj
      simp only [hj', Bool.false_eq_true, if_false]
      rfl

/-- C7 amended: every value written to ai_ingredients is the
serialization of the JSON object finalResultJson computes: the
exhausted-retry sentinel on the failure path and the reconciled
structuring output on the success path.  The written object has exactly
the keys title (string), main (strings) and sauce (strings) for every
outcome except a truthy structuring object of a different shape, which
collector.py lines 400 to 406 serialize without any validation. -/
theorem ai_ingredients_payload_shape (outcome : Except GeminiError Json) (v : Video) :
    (process_pending_videos_step outcome v).ai_ingredients
      = some (Json.dumps (finalResultJson outcome))
    ∧ (goodOutcome outcome = true → wellShaped (finalResultJson outcome) = true) :=
  ⟨step_ai_ingredients_eq outcome v, fun hg => finalResultJson_wellShaped outcome hg⟩

def geminiFailOutcome : Except GeminiError Json := .error ⟨"deadline exceeded"⟩

/-- Witness for the amended C7 on the failure path. -/
theorem ai_ingredients_payload_shape_witness :
    (process_pending_videos_step geminiFailOutcome samplePendingVideo).ai_ingredients
      = some (Json.dumps (finalResultJson geminiFailOutcome))
    ∧ wellShaped (finalResultJson geminiFailOutcome) = true :=
  ⟨(ai_ingredients_payload_shape geminiFailOutcome samplePendingVideo).1,
   (ai_ingredients_payload_shape geminiFailOutcome samplePendingVideo).2 rfl⟩

def c7Outcome : Except GeminiError Json :=
  .ok (.obj [("title", .str "김치볶음밥"), ("main", .arr [.str "밥 1공기"]),
             ("sauce", .arr []), ("tip", .str "참기름")])

/-- C7 counterexample: a structuring call that returns a JSON object
with an extra key is serialized and stored as-is, so a value of a shape
other than the three-key contract is written to ai_ingredients. -/
theorem extra_key_payload_written :
    (process_pending_videos_step c7Outcome samplePendingVideo).ai_ingredients
      = some "\x7b\"title\": \"김치볶음밥\", \"main\": [\"밥 1공기\"], \"sauce\": [], \"tip\": \"참기름\"\x7d"
    ∧ wellShaped (finalResultJson c7Outcome) = false
    ∧ (process_pending_videos_step c7Outcome samplePendingVideo).ai_ingredients
      = some (Json.dumps (finalResultJson c7Outcome)) :=
  ⟨rfl, rfl, rfl⟩
